import Mathlib

/-!
Verification of the KNN music recommendation engine from `src/main.py`
(`SistemaRecomendacionMusical`).

Modelling conventions:
* Feature values are exact rationals (the Python floats are idealized to
  exact arithmetic); the Euclidean distance lives in `ℝ` via `Real.sqrt`.
* A Python dict with the three feature keys (the query) and a song record
  are both modelled by `Cancion`; the query's `id`, `nombre` and `genero`
  fields are irrelevant junk, which is itself proved below.
* Python's stable `list.sort(key=...)` is modelled by `List.mergeSort`.
  The source sorts by the float distance `sqrt d`; since `Real.sqrt` is
  monotone, sorting by the exact squared distance `d` (decidable over `ℚ`)
  produces the identical order, and the stored distance is recovered by
  applying `Real.sqrt` afterwards.
* Python's slice `l[:k]` for an arbitrary integer `k` is `pySlice`.
* The insertion-ordered dict `conteo_generos` is an association list; the
  `max(..., key=...)` built-in, which keeps the first maximal element, is
  `max_by_conteo`.
* A Python exception escaping `recomendar` (the `ValueError` from `max`
  on an empty sequence) is modelled by `Option.none`.
-/

/-- A song record: `id`, display name, genre label and the three feature
axes (energia, bailabilidad, valencia). Also used for query points. -/
structure Cancion where
  id : ℕ
  nombre : String
  genero : String
  energia : ℚ
  bailabilidad : ℚ
  valencia : ℚ
deriving DecidableEq

/-- The fixed genre list `self.generos` from `__init__`. -/
def generos : List String :=
  ["Pop", "Rock", "EDM", "Jazz", "Reggaeton", "Indie", "Hip Hop", "Clásica"]

/-- The `caracteristicas_genero` table from `_generar_canciones`: per genre,
the `[min, max]` range for (energia, bailabilidad, valencia). The final
branch is "Clásica"; the dict covers exactly the eight genres and is only
ever indexed by members of `generos`. -/
def caracteristicas_genero (g : String) : (ℚ × ℚ) × (ℚ × ℚ) × (ℚ × ℚ) :=
  if g = "Pop" then ((60, 80), (70, 90), (60, 85))
  else if g = "Rock" then ((70, 95), (40, 70), (40, 70))
  else if g = "EDM" then ((80, 100), (75, 95), (60, 90))
  else if g = "Jazz" then ((20, 50), (30, 60), (40, 70))
  else if g = "Reggaeton" then ((70, 90), (80, 100), (65, 85))
  else if g = "Indie" then ((40, 70), (40, 70), (45, 75))
  else if g = "Hip Hop" then ((60, 85), (70, 90), (40, 70))
  else ((20, 40), (10, 30), (50, 80))

/-- `_generar_canciones(n)`: the pseudo-random draws made through the
seeded numpy generator are abstracted into two streams: `pick i` is the
genre index drawn by `np.random.choice` for song `i`, and `unif i ax a b`
is the value drawn by `np.random.uniform(a, b)` for song `i` on axis `ax`
(0 = energia, 1 = bailabilidad, 2 = valencia). Both streams are a pure
function of the seed (`np.random.seed(42)`). -/
def _generar_canciones (n : ℕ) (pick : ℕ → Fin generos.length)
    (unif : ℕ → ℕ → ℚ → ℚ → ℚ) : List Cancion :=
  (List.range n).map fun i =>
    let genero := generos.get (pick i)
    let rangos := caracteristicas_genero genero
    { id := i
      nombre := genero ++ " Song " ++ toString (i % 20 + 1)
      genero := genero
      energia := unif i 0 rangos.1.1 rangos.1.2
      bailabilidad := unif i 1 rangos.2.1.1 rangos.2.1.2
      valencia := unif i 2 rangos.2.2.1 rangos.2.2.2 }

/-- The exact squared Euclidean distance between the feature triples of
two records (the quantity under the square root in `calcular_distancia`). -/
def distancia_sq (c1 c2 : Cancion) : ℚ :=
  (c1.energia - c2.energia) ^ 2 + (c1.bailabilidad - c2.bailabilidad) ^ 2
    + (c1.valencia - c2.valencia) ^ 2

/-- `calcular_distancia(cancion1, cancion2)`: the Euclidean norm
`np.linalg.norm` of the difference of the two feature vectors. -/
noncomputable def calcular_distancia (c1 c2 : Cancion) : ℝ :=
  Real.sqrt ((distancia_sq c1 c2 : ℚ) : ℝ)

theorem distancia_sq_nonneg (c1 c2 : Cancion) : 0 ≤ distancia_sq c1 c2 := by
  unfold distancia_sq
  positivity

theorem distancia_sq_comm (c1 c2 : Cancion) :
    distancia_sq c1 c2 = distancia_sq c2 c1 := by
  unfold distancia_sq
  ring

/-- C3: `calcular_distancia` is the Euclidean distance
`sqrt ((Δ energia)^2 + (Δ bailabilidad)^2 + (Δ valencia)^2)`; it is
nonnegative, zero on the diagonal, and symmetric. -/
theorem calcular_distancia_euclidiana (a b : Cancion) :
    calcular_distancia a b
        = Real.sqrt (((a.energia : ℝ) - (b.energia : ℝ)) ^ 2
            + ((a.bailabilidad : ℝ) - (b.bailabilidad : ℝ)) ^ 2
            + ((a.valencia : ℝ) - (b.valencia : ℝ)) ^ 2)
      ∧ 0 ≤ calcular_distancia a b
      ∧ calcular_distancia a a = 0
      ∧ calcular_distancia a b = calcular_distancia b a := by
  refine ⟨?_, Real.sqrt_nonneg _, ?_, ?_⟩
  · unfold calcular_distancia distancia_sq
    push_cast
    ring_nf
  · unfold calcular_distancia distancia_sq
    simp
  · unfold calcular_distancia
    rw [distancia_sq_comm]

/-- C10: the distance depends only on the three feature fields; records
that agree on energia, bailabilidad and valencia but differ arbitrarily in
`id`, `nombre` or `genero` are at identical distances. -/
theorem calcular_distancia_solo_caracteristicas (a a' b b' : Cancion)
    (hae : a.energia = a'.energia) (hab : a.bailabilidad = a'.bailabilidad)
    (hav : a.valencia = a'.valencia)
    (hbe : b.energia = b'.energia) (hbb : b.bailabilidad = b'.bailabilidad)
    (hbv : b.valencia = b'.valencia) :
    calcular_distancia a b = calcular_distancia a' b' := by
  unfold calcular_distancia distancia_sq
  rw [hae, hab, hav, hbe, hbb, hbv]

/-- Witness for C10 at concrete records differing only in metadata. -/
theorem calcular_distancia_solo_caracteristicas_witness :
    calcular_distancia ⟨0, "Pop Song 1", "Pop", 1, 2, 3⟩ ⟨1, "Rock Song 2", "Rock", 4, 6, 3⟩
      = calcular_distancia ⟨7, "EDM Song 3", "EDM", 1, 2, 3⟩ ⟨9, "Jazz Song 4", "Jazz", 4, 6, 3⟩ :=
  calcular_distancia_solo_caracteristicas _ _ _ _ rfl rfl rfl rfl rfl rfl

/-- Python's slice `l[:k]` for an arbitrary integer `k`: for `k ≥ 0` the
first `k` elements, for `k < 0` all but the last `-k` elements (clamped
at the empty list). -/
def pySlice {α : Type} (l : List α) (k : ℤ) : List α :=
  if 0 ≤ k then l.take k.toNat else l.take (l.length - (-k).toNat)

/-- The decorated list built by the loop in `encontrar_k_vecinos`: every
catalog song paired with its squared distance to the query, in catalog
order. (The source stores the distance itself; see `leDist`.) -/
def distancias (canciones : List Cancion) (punto_consulta : Cancion) :
    List (Cancion × ℚ) :=
  canciones.map fun cancion => (cancion, distancia_sq punto_consulta cancion)

/-- The comparison used to model `distancias.sort(key=lambda x: x[1])`:
compare the squared distances. Since `Real.sqrt` is monotone this orders
the pairs exactly as the source's comparison of the distances themselves. -/
def leDist (p q : Cancion × ℚ) : Bool := decide (p.2 ≤ q.2)

/-- The list `distancias` after the stable sort by distance. -/
def distancias_ordenadas (canciones : List Cancion) (punto_consulta : Cancion) :
    List (Cancion × ℚ) :=
  (distancias canciones punto_consulta).mergeSort leDist

/-- `encontrar_k_vecinos(punto_consulta, k)`: decorate with distances,
stable-sort by distance, slice off the first `k`. The stored distance
`Real.sqrt` of the squared distance is exactly the source's
`calcular_distancia` value. -/
noncomputable def encontrar_k_vecinos (canciones : List Cancion)
    (punto_consulta : Cancion) (k : ℤ) : List (Cancion × ℝ) :=
  pySlice ((distancias_ordenadas canciones punto_consulta).map
    fun p => (p.1, Real.sqrt ((p.2 : ℚ) : ℝ))) k

/-- One iteration of the genre-counting loop in `recomendar`:
`conteo_generos[genero] = conteo_generos.get(genero, 0) + 1` on an
insertion-ordered dict, modelled as an association list. -/
def actualizar_conteo (conteo : List (String × ℕ)) (g : String) :
    List (String × ℕ) :=
  if conteo.any fun p => p.1 == g then
    conteo.map fun p => if p.1 = g then (p.1, p.2 + 1) else p
  else conteo ++ [(g, 1)]

/-- The genre histogram of `recomendar`: fold the counting loop over the
genres of the neighbours in order. -/
def conteo_generos (gs : List String) : List (String × ℕ) :=
  gs.foldl actualizar_conteo []

/-- Python's `max(items, key=lambda x: x[1])`: scan left to right, keep
the current maximum, replace only on a strictly larger key — hence the
FIRST maximal element wins. `none` models the `ValueError` raised on an
empty sequence. -/
def max_by_conteo : List (String × ℕ) → Option (String × ℕ)
  | [] => none
  | p :: ps => some (ps.foldl (fun acc q => if acc.2 < q.2 then q else acc) p)

/-- `recomendar(punto_consulta, k)`: find the neighbours, build the genre
histogram, pick the genre with the maximal count. `none` models the
uncaught `ValueError` from `max` when the histogram is empty. -/
noncomputable def recomendar (canciones : List Cancion)
    (punto_consulta : Cancion) (k : ℤ) :
    Option (List (Cancion × ℝ) × String × List (String × ℕ)) :=
  let vecinos := encontrar_k_vecinos canciones punto_consulta k
  let conteo := conteo_generos (vecinos.map fun p => p.1.genero)
  match max_by_conteo conteo with
  | none => none
  | some m => some (vecinos, m.1, conteo)

/-- The mutable state of `SistemaRecomendacionMusical`. -/
structure Sistema where
  canciones : List Cancion
  k_actual : ℤ
  punto_consulta : Option Cancion
  vecinos_cercanos : List (Cancion × ℝ)

/-- The method call `self.encontrar_k_vecinos(punto_consulta, k)` as a
state transformer: it returns the state of `self` and of the (mutable,
passed-by-reference) query dict after the call, together with the result.
The method body contains no assignment to `self` and no write to the query,
so both come back unchanged. -/
noncomputable def metodo_encontrar_k_vecinos (s : Sistema) (punto : Cancion)
    (k : ℤ) : Sistema × Cancion × List (Cancion × ℝ) :=
  (s, punto, encontrar_k_vecinos s.canciones punto k)

/-- The method call `self.recomendar(punto_consulta, k)` as a state
transformer, analogous to `metodo_encontrar_k_vecinos`. -/
noncomputable def metodo_recomendar (s : Sistema) (punto : Cancion) (k : ℤ) :
    Sistema × Cancion × Option (List (Cancion × ℝ) × String × List (String × ℕ)) :=
  (s, punto, recomendar s.canciones punto k)

theorem leDist_trans (p q r : Cancion × ℚ) :
    leDist p q → leDist q r → leDist p r := by
  simp only [leDist, decide_eq_true_eq]
  exact le_trans

theorem leDist_total (p q : Cancion × ℚ) : leDist p q || leDist q p := by
  simp only [leDist, Bool.or_eq_true, decide_eq_true_eq]
  exact le_total p.2 q.2

theorem pySlice_of_nonneg {α : Type} (l : List α) {k : ℤ} (hk : 0 ≤ k) :
    pySlice l k = l.take k.toNat := if_pos hk

theorem length_distancias_ordenadas (canciones : List Cancion) (q : Cancion) :
    (distancias_ordenadas canciones q).length = canciones.length := by
  simp [distancias_ordenadas, distancias]

theorem mem_distancias_ordenadas {canciones : List Cancion} {q : Cancion}
    {p : Cancion × ℚ} (hp : p ∈ distancias_ordenadas canciones q) :
    p.1 ∈ canciones ∧ p.2 = distancia_sq q p.1 := by
  rw [distancias_ordenadas, List.mem_mergeSort, distancias, List.mem_map] at hp
  obtain ⟨c, hc, rfl⟩ := hp
  exact ⟨hc, rfl⟩

theorem sorted_distancias_ordenadas (canciones : List Cancion) (q : Cancion) :
    (distancias_ordenadas canciones q).Pairwise fun p₁ p₂ => p₁.2 ≤ p₂.2 := by
  have h := List.sorted_mergeSort leDist_trans leDist_total
    (distancias canciones q)
  rw [distancias_ordenadas]
  exact h.imp fun hab => by simpa [leDist] using hab

/-- C1: for every query and every positive `k`, `encontrar_k_vecinos`
returns exactly `min k (catalog size)` pairs, each pairing a song with its
`calcular_distancia` to the query, ordered by non-decreasing distance;
a `k` beyond the catalog size is clamped by the slice, never an error. -/
theorem encontrar_k_vecinos_spec (canciones : List Cancion) (q : Cancion)
    (k : ℤ) (hk : 0 < k) :
    (encontrar_k_vecinos canciones q k).length = min k.toNat canciones.length
      ∧ List.Pairwise (fun p₁ p₂ : Cancion × ℝ => p₁.2 ≤ p₂.2)
          (encontrar_k_vecinos canciones q k)
      ∧ ∀ p ∈ encontrar_k_vecinos canciones q k,
          p.2 = calcular_distancia q p.1 := by
  have hE : encontrar_k_vecinos canciones q k
      = ((distancias_ordenadas canciones q).map
          fun p => (p.1, Real.sqrt ((p.2 : ℚ) : ℝ))).take k.toNat := by
    rw [encontrar_k_vecinos, pySlice_of_nonneg _ (le_of_lt hk)]
  refine ⟨?_, ?_, ?_⟩
  · rw [hE, List.length_take, List.length_map, length_distancias_ordenadas]
  · rw [hE]
    refine List.Pairwise.sublist (List.take_sublist _ _) ?_
    refine List.pairwise_map.mpr ?_
    refine (sorted_distancias_ordenadas canciones q).imp ?_
    intro a b hab
    exact Real.sqrt_le_sqrt (by exact_mod_cast hab)
  · intro p hp
    rw [hE] at hp
    have hp' := (List.take_sublist _ _).subset hp
    rw [List.mem_map] at hp'
    obtain ⟨p', hp', rfl⟩ := hp'
    have h2 := (mem_distancias_ordenadas hp').2
    simp only [calcular_distancia, h2]

/-- Witness for C1: a two-song catalog with `k = 5` (the clamp case). -/
theorem encontrar_k_vecinos_spec_witness :
    (encontrar_k_vecinos
        [⟨0, "Rock Song 1", "Rock", 0, 0, 0⟩, ⟨1, "Pop Song 2", "Pop", 3, 4, 0⟩]
        ⟨0, "", "", 1, 1, 1⟩ 5).length
      = min (Int.toNat 5)
          [Cancion.mk 0 "Rock Song 1" "Rock" 0 0 0, Cancion.mk 1 "Pop Song 2" "Pop" 3 4 0].length
      ∧ List.Pairwise (fun p₁ p₂ : Cancion × ℝ => p₁.2 ≤ p₂.2)
          (encontrar_k_vecinos
            [⟨0, "Rock Song 1", "Rock", 0, 0, 0⟩, ⟨1, "Pop Song 2", "Pop", 3, 4, 0⟩]
            ⟨0, "", "", 1, 1, 1⟩ 5)
      ∧ ∀ p ∈ encontrar_k_vecinos
            [⟨0, "Rock Song 1", "Rock", 0, 0, 0⟩, ⟨1, "Pop Song 2", "Pop", 3, 4, 0⟩]
            ⟨0, "", "", 1, 1, 1⟩ 5,
          p.2 = calcular_distancia ⟨0, "", "", 1, 1, 1⟩ p.1 :=
  encontrar_k_vecinos_spec _ _ 5 (by decide)

/-- C4: the sort in `encontrar_k_vecinos` is stable — for every distance
value `d`, the songs at squared distance `d` appear in the sorted sequence
exactly as they appear in the catalog (same order, same multiplicity).
The returned neighbour list is a prefix (`pySlice`) of the `Real.sqrt`
image of this sorted sequence, so equal-distance songs also appear there
in catalog insertion order. -/
theorem distancias_ordenadas_estable (canciones : List Cancion)
    (q : Cancion) (d : ℚ) :
    (distancias_ordenadas canciones q).filter (fun p => decide (p.2 = d))
      = (distancias canciones q).filter (fun p => decide (p.2 = d)) := by
  set l := distancias canciones q with hl
  set c := l.filter (fun p => decide (p.2 = d)) with hcdef
  have hmemc : ∀ p ∈ c, p.2 = d := by
    intro p hp
    have := (List.mem_filter.mp hp).2
    simpa using this
  have hc_pw : c.Pairwise (leDist · ·) := by
    refine List.pairwise_of_forall_mem_list ?_
    intro a ha b hb
    simp [leDist, hmemc a ha, hmemc b hb]
  have h1 : List.Sublist c (l.mergeSort leDist) :=
    List.sublist_mergeSort leDist_trans leDist_total hc_pw (List.filter_sublist l)
  have h2 : List.Sublist c ((l.mergeSort leDist).filter (fun p => decide (p.2 = d))) := by
    have := h1.filter (fun p => decide (p.2 = d))
    rw [hcdef, List.filter_filter] at this
    simpa only [Bool.and_self] using this
  have hlen : ((l.mergeSort leDist).filter (fun p => decide (p.2 = d))).length
      = c.length := by
    exact ((List.mergeSort_perm l leDist).filter _).length_eq
  have := h2.eq_of_length (by rw [hlen])
  rw [distancias_ordenadas, ← hl, ← this]

theorem conteo_generos_append (gs : List String) (g : String) :
    conteo_generos (gs ++ [g]) = actualizar_conteo (conteo_generos gs) g := by
  simp [conteo_generos, List.foldl_append]

/-- Invariant of the genre histogram: every entry records a genre of the
input with its exact occurrence count, every input genre appears, and the
entries are listed in strictly increasing order of first occurrence. -/
theorem conteo_generos_inv (gs : List String) :
    (∀ p ∈ conteo_generos gs, p.1 ∈ gs ∧ p.2 = gs.count p.1)
      ∧ (∀ g ∈ gs, ∃ c, (g, c) ∈ conteo_generos gs)
      ∧ (conteo_generos gs).Pairwise
          (fun p q => List.indexOf p.1 gs < List.indexOf q.1 gs) := by
  induction gs using List.reverseRecOn with
  | nil => simp [conteo_generos]
  | append_singleton gs g ih =>
    obtain ⟨ha, hb, hc⟩ := ih
    rw [conteo_generos_append]
    by_cases hg : ∃ p ∈ conteo_generos gs, p.1 = g
    · have hcond : (conteo_generos gs).any (fun p => p.1 == g) = true := by
        rw [List.any_eq_true]
        obtain ⟨p, hp, hpg⟩ := hg
        exact ⟨p, hp, by simpa using hpg⟩
      rw [actualizar_conteo, if_pos hcond]
      have hgmem : g ∈ gs := by
        obtain ⟨p, hp, hpg⟩ := hg
        have := (ha p hp).1
        rwa [hpg] at this
      refine ⟨?_, ?_, ?_⟩
      · intro p hp
        rw [List.mem_map] at hp
        obtain ⟨p₀, hp₀, rfl⟩ := hp
        obtain ⟨hmem, hcount⟩ := ha p₀ hp₀
        by_cases hpg : p₀.1 = g
        · rw [if_pos hpg]
          refine ⟨List.mem_append_left _ hmem, ?_⟩
          show p₀.2 + 1 = List.count p₀.1 (gs ++ [g])
          rw [hpg] at hcount ⊢
          rw [List.count_append, List.count_singleton_self, ← hcount]
        · rw [if_neg hpg]
          refine ⟨List.mem_append_left _ hmem, ?_⟩
          have hbe : ¬ (g == p₀.1) = true := by
            simp only [beq_iff_eq]
            exact fun h => hpg h.symm
          rw [List.count_append, List.count_singleton, if_neg hbe,
            Nat.add_zero]
          exact hcount
      · intro h hh
        rw [List.mem_append] at hh
        rcases hh with hh | hh
        · obtain ⟨c, hcmem⟩ := hb h hh
          refine ⟨if h = g then c + 1 else c, ?_⟩
          rw [List.mem_map]
          refine ⟨(h, c), hcmem, ?_⟩
          by_cases hhg : h = g
          · simp [hhg]
          · simp [hhg]
        · rw [List.mem_singleton] at hh
          subst hh
          obtain ⟨p, hp, hpg⟩ := hg
          obtain ⟨c, hcmem⟩ := hb h (by rw [← hpg]; exact (ha p hp).1)
          refine ⟨c + 1, ?_⟩
          rw [List.mem_map]
          exact ⟨(h, c), hcmem, by simp⟩
      · refine List.pairwise_map.mpr ?_
        refine hc.imp_of_mem ?_
        intro p q hp hq hlt
        have hp1 : (if p.1 = g then (p.1, p.2 + 1) else p).1 = p.1 := by
          by_cases h : p.1 = g <;> simp [h]
        have hq1 : (if q.1 = g then (q.1, q.2 + 1) else q).1 = q.1 := by
          by_cases h : q.1 = g <;> simp [h]
        rw [hp1, hq1,
          List.indexOf_append_of_mem (ha p hp).1,
          List.indexOf_append_of_mem (ha q hq).1]
        exact hlt
    · have hgnot : ∀ p ∈ conteo_generos gs, p.1 ≠ g := by
        intro p hp hpg
        exact hg ⟨p, hp, hpg⟩
      have hcond : (conteo_generos gs).any (fun p => p.1 == g) = false := by
        rw [List.any_eq_false]
        intro p hp
        simpa using hgnot p hp
      rw [actualizar_conteo, hcond]
      simp only [Bool.false_eq_true, if_false]
      have hgs : g ∉ gs := by
        intro hmem
        obtain ⟨c, hcmem⟩ := hb g hmem
        exact hgnot (g, c) hcmem rfl
      refine ⟨?_, ?_, ?_⟩
      · intro p hp
        rw [List.mem_append, List.mem_singleton] at hp
        rcases hp with hp | hp
        · obtain ⟨hmem, hcount⟩ := ha p hp
          refine ⟨List.mem_append_left _ hmem, ?_⟩
          have hbe : ¬ (g == p.1) = true := by
            simp only [beq_iff_eq]
            exact fun h => hgnot p hp h.symm
          rw [List.count_append, List.count_singleton, if_neg hbe,
            Nat.add_zero]
          exact hcount
        · subst hp
          refine ⟨List.mem_append_right _ (List.mem_singleton_self g), ?_⟩
          rw [List.count_append, List.count_singleton_self,
            List.count_eq_zero.mpr hgs]
      · intro h hh
        rw [List.mem_append, List.mem_singleton] at hh
        rcases hh with hh | hh
        · obtain ⟨c, hcmem⟩ := hb h hh
          exact ⟨c, List.mem_append_left _ hcmem⟩
        · subst hh
          exact ⟨1, List.mem_append_right _ (List.mem_singleton_self _)⟩
      · rw [List.pairwise_append]
        refine ⟨?_, List.pairwise_singleton _ _, ?_⟩
        · refine hc.imp_of_mem ?_
          intro p q hp hq hlt
          rw [List.indexOf_append_of_mem (ha p hp).1,
            List.indexOf_append_of_mem (ha q hq).1]
          exact hlt
        · intro p hp q hq
          rw [List.mem_singleton] at hq
          subst hq
          rw [List.indexOf_append_of_mem (ha p hp).1,
            List.indexOf_append_of_not_mem hgs]
          simp only [List.indexOf_cons_self, Nat.add_zero]
          exact List.indexOf_lt_length.mpr (ha p hp).1

/-- The accumulator loop of Python's `max(..., key=lambda x: x[1])`. -/
def max_acumulado (a : String × ℕ) (ps : List (String × ℕ)) : String × ℕ :=
  ps.foldl (fun acc q => if acc.2 < q.2 then q else acc) a

theorem max_by_conteo_cons (p : String × ℕ) (ps : List (String × ℕ)) :
    max_by_conteo (p :: ps) = some (max_acumulado p ps) := rfl

/-- Python's `max` keeps the first maximal element: the result is an
element of maximal key, and every other element with the same key is
either the result itself or comes later in any order `R` in which the
scanned list is pairwise increasing. -/
theorem max_acumulado_spec {R : (String × ℕ) → (String × ℕ) → Prop}
    (hR : ∀ a b c, R a b → R b c → R a c) :
    ∀ (ps : List (String × ℕ)) (a : String × ℕ),
      (∀ p ∈ ps, R a p) → ps.Pairwise R →
      (max_acumulado a ps = a ∨ max_acumulado a ps ∈ ps)
        ∧ a.2 ≤ (max_acumulado a ps).2
        ∧ (∀ p ∈ ps, p.2 ≤ (max_acumulado a ps).2)
        ∧ (a.2 = (max_acumulado a ps).2 → max_acumulado a ps = a)
        ∧ (∀ p ∈ ps, p.2 = (max_acumulado a ps).2 →
            p = max_acumulado a ps ∨ R (max_acumulado a ps) p)
  | [], a, _, _ => ⟨Or.inl rfl, le_refl _, by simp, fun _ => rfl, by simp⟩
  | p :: ps, a, hall, hpw => by
    have hps := List.pairwise_cons.mp hpw
    have hstep : max_acumulado a (p :: ps)
        = max_acumulado (if a.2 < p.2 then p else a) ps := rfl
    by_cases h : a.2 < p.2
    · rw [hstep, if_pos h]
      obtain ⟨ih1, ih2, ih3, ih4, ih5⟩ :=
        max_acumulado_spec hR ps p hps.1 hps.2
      refine ⟨?_, ?_, ?_, ?_, ?_⟩
      · rcases ih1 with h1 | h1
        · exact Or.inr (by rw [h1]; exact List.mem_cons_self p ps)
        · exact Or.inr (List.mem_cons_of_mem _ h1)
      · exact le_of_lt (lt_of_lt_of_le h ih2)
      · intro q hq
        rcases List.mem_cons.mp hq with rfl | hq
        · exact ih2
        · exact ih3 q hq
      · intro heq
        exact absurd heq (Nat.ne_of_lt (lt_of_lt_of_le h ih2))
      · intro q hq hq2
        rcases List.mem_cons.mp hq with rfl | hq
        · exact Or.inl (ih4 hq2).symm
        · exact ih5 q hq hq2
    · rw [hstep, if_neg h]
      have hle : p.2 ≤ a.2 := le_of_not_lt h
      obtain ⟨ih1, ih2, ih3, ih4, ih5⟩ :=
        max_acumulado_spec hR ps a
          (fun q hq => hall q (List.mem_cons_of_mem _ hq)) hps.2
      refine ⟨?_, ?_, ?_, ?_, ?_⟩
      · rcases ih1 with h1 | h1
        · exact Or.inl h1
        · exact Or.inr (List.mem_cons_of_mem _ h1)
      · exact ih2
      · intro q hq
        rcases List.mem_cons.mp hq with rfl | hq
        · exact le_trans hle ih2
        · exact ih3 q hq
      · exact ih4
      · intro q hq hq2
        rcases List.mem_cons.mp hq with rfl | hq
        · have ha2 : a.2 = (max_acumulado a ps).2 :=
            le_antisymm ih2 (hq2 ▸ hle)
          have hra := ih4 ha2
          exact Or.inr (by rw [hra]; exact hall q (List.mem_cons_self _ _))
        · exact ih5 q hq hq2

/-- C2: on a non-empty catalog with positive `k`, `recomendar` returns the
genre of maximal occurrence count among the returned neighbours, and a tie
between genres of maximal count is broken towards the genre whose first
occurrence in the neighbour sequence is earliest (Python's `max` keeps the
first maximal entry of the insertion-ordered histogram). -/
theorem recomendar_genero_mayoritario (canciones : List Cancion) (q : Cancion)
    (k : ℤ) (hne : canciones ≠ []) (hk : 0 < k) :
    ∃ vecinos genero conteo,
      recomendar canciones q k = some (vecinos, genero, conteo)
        ∧ genero ∈ vecinos.map (fun p => p.1.genero)
        ∧ (∀ g ∈ vecinos.map (fun p => p.1.genero),
            List.count g (vecinos.map fun p => p.1.genero)
              ≤ List.count genero (vecinos.map fun p => p.1.genero))
        ∧ (∀ g ∈ vecinos.map (fun p => p.1.genero),
            List.count g (vecinos.map fun p => p.1.genero)
                = List.count genero (vecinos.map fun p => p.1.genero) →
              List.indexOf genero (vecinos.map fun p => p.1.genero)
                ≤ List.indexOf g (vecinos.map fun p => p.1.genero)) := by
  have hlen : (encontrar_k_vecinos canciones q k).length
      = min k.toNat canciones.length := by
    rw [encontrar_k_vecinos, pySlice_of_nonneg _ (le_of_lt hk),
      List.length_take, List.length_map, length_distancias_ordenadas]
  have hvne : encontrar_k_vecinos canciones q k ≠ [] := by
    intro h0
    rw [h0] at hlen
    have hn : canciones.length ≠ 0 := fun h => hne (List.length_eq_zero.mp h)
    have hk1 : 0 < k.toNat := by omega
    simp only [List.length_nil] at hlen
    omega
  have hgsne : (encontrar_k_vecinos canciones q k).map (fun p => p.1.genero)
      ≠ [] := by
    simpa [List.map_eq_nil_iff] using hvne
  obtain ⟨ha, hb, hc⟩ :=
    conteo_generos_inv ((encontrar_k_vecinos canciones q k).map
      fun p => p.1.genero)
  obtain ⟨g₀, hg₀⟩ := List.exists_mem_of_ne_nil _ hgsne
  obtain ⟨c₀, hc₀⟩ := hb g₀ hg₀
  cases hcont : conteo_generos ((encontrar_k_vecinos canciones q k).map
      fun p => p.1.genero) with
  | nil =>
    rw [hcont] at hc₀
    exact absurd hc₀ (List.not_mem_nil _)
  | cons p ps =>
    have hp := List.pairwise_cons.mp (hcont ▸ hc)
    obtain ⟨m1, m2, m3, m4, m5⟩ :=
      max_acumulado_spec
        (R := fun x y =>
          List.indexOf x.1 ((encontrar_k_vecinos canciones q k).map
              fun p => p.1.genero)
            < List.indexOf y.1 ((encontrar_k_vecinos canciones q k).map
              fun p => p.1.genero))
        (fun a b c => Nat.lt_trans) ps p hp.1 hp.2
    set m := max_acumulado p ps with hm
    have hm_mem : m ∈ conteo_generos ((encontrar_k_vecinos canciones q k).map
        fun p => p.1.genero) := by
      rw [hcont]
      rcases m1 with h1 | h1
      · rw [h1]; exact List.mem_cons_self _ _
      · exact List.mem_cons_of_mem _ h1
    obtain ⟨hma, hmc⟩ := ha m hm_mem
    refine ⟨encontrar_k_vecinos canciones q k, m.1, p :: ps, ?_, hma, ?_, ?_⟩
    · simp only [recomendar]
      rw [hcont, max_by_conteo_cons]
    · intro g hg
      obtain ⟨c, hc'⟩ := hb g hg
      have hgc := (ha (g, c) hc').2
      have hle : (g, c).2 ≤ m.2 := by
        rw [hcont] at hc'
        rcases List.mem_cons.mp hc' with h1 | h1
        · rw [h1]; exact m2
        · exact m3 _ h1
      rw [← hgc, ← hmc]
      exact hle
    · intro g hg hcnt
      obtain ⟨c, hc'⟩ := hb g hg
      have hgc2 : c = List.count g
          (List.map (fun p => p.1.genero) (encontrar_k_vecinos canciones q k)) :=
        (ha (g, c) hc').2
      have heq2 : (g, c).2 = m.2 := by
        show c = m.2
        rw [hgc2, hcnt, ← hmc]
      rw [hcont] at hc'
      rcases List.mem_cons.mp hc' with h1 | h1
      · have hmp : m = p := m4 (by rw [← h1]; exact heq2)
        have hg1 : m.1 = g := by rw [hmp, ← h1]
        rw [hg1]
      · rcases m5 (g, c) h1 heq2 with h2 | h2
        · have hg1 : m.1 = g := by rw [← h2]
          rw [hg1]
        · exact le_of_lt h2

/-- Witness for C2: a one-song catalog with `k = 1`. -/
theorem recomendar_genero_mayoritario_witness :
    ∃ vecinos genero conteo,
      recomendar [⟨0, "Rock Song 1", "Rock", 0, 0, 0⟩] ⟨0, "", "", 1, 1, 1⟩ 1
          = some (vecinos, genero, conteo)
        ∧ genero ∈ vecinos.map (fun p => p.1.genero)
        ∧ (∀ g ∈ vecinos.map (fun p => p.1.genero),
            List.count g (vecinos.map fun p => p.1.genero)
              ≤ List.count genero (vecinos.map fun p => p.1.genero))
        ∧ (∀ g ∈ vecinos.map (fun p => p.1.genero),
            List.count g (vecinos.map fun p => p.1.genero)
                = List.count genero (vecinos.map fun p => p.1.genero) →
              List.indexOf genero (vecinos.map fun p => p.1.genero)
                ≤ List.indexOf g (vecinos.map fun p => p.1.genero)) :=
  recomendar_genero_mayoritario _ _ 1 (by simp) (by decide)

/-- The recommendation fails (escaping `ValueError`) precisely when the
neighbour list is empty: the genre histogram of an empty neighbour list is
empty, and `max` on an empty sequence raises. -/
theorem recomendar_eq_none_iff (canciones : List Cancion) (q : Cancion)
    (k : ℤ) :
    recomendar canciones q k = none ↔ encontrar_k_vecinos canciones q k = [] := by
  cases hcont : conteo_generos ((encontrar_k_vecinos canciones q k).map
      fun p => p.1.genero) with
  | nil =>
    have hgs : (encontrar_k_vecinos canciones q k).map (fun p => p.1.genero)
        = [] := by
      by_contra hne
      obtain ⟨g, hg⟩ := List.exists_mem_of_ne_nil _ hne
      obtain ⟨c, hc⟩ := (conteo_generos_inv _).2.1 g hg
      rw [hcont] at hc
      exact List.not_mem_nil _ hc
    have hv : encontrar_k_vecinos canciones q k = [] :=
      List.map_eq_nil_iff.mp hgs
    have hrec : recomendar canciones q k = none := by
      simp only [recomendar]
      rw [hcont]
      rfl
    exact ⟨fun _ => hv, fun _ => hrec⟩
  | cons p ps =>
    have hrec : recomendar canciones q k
        = some (encontrar_k_vecinos canciones q k,
            (max_acumulado p ps).1, p :: ps) := by
      simp only [recomendar]
      rw [hcont, max_by_conteo_cons]
    have hvne : encontrar_k_vecinos canciones q k ≠ [] := by
      intro h0
      rw [h0] at hcont
      simp [conteo_generos] at hcont
    constructor
    · intro h
      rw [hrec] at h
      exact absurd h (by simp)
    · intro h
      exact absurd h hvne

/-- C6: on an empty catalog, `recomendar` never returns a result for any
positive `k`; the failure is the uncaught `ValueError` raised by `max` on
the empty genre histogram (modelled by `none`), so no vacuous
recommendation is ever produced. -/
theorem recomendar_catalogo_vacio (q : Cancion) (k : ℤ) (hk : 0 < k) :
    recomendar [] q k = none := by
  rw [recomendar_eq_none_iff]
  rw [encontrar_k_vecinos, distancias_ordenadas, distancias]
  simp [pySlice]

/-- Witness for C6 at a concrete query and `k = 1`. -/
theorem recomendar_catalogo_vacio_witness :
    recomendar [] ⟨0, "", "", 50, 50, 50⟩ 1 = none :=
  recomendar_catalogo_vacio _ 1 (by decide)

/-- C5 (amended): `recomendar` performs no validation of `k` at all. For
`k ≤ 0` it fails (with the `ValueError` from `max`, modelled by `none`)
exactly when the sliced neighbour list is empty, namely for `k = 0` or
`catalog size + k ≤ 0`; for every other non-positive `k` — any negative
`k` with `|k|` smaller than the catalog — the Python slice `[:k]` silently
drops the `|k|` farthest songs and a normal recommendation is returned,
with no `InvalidParameter` signalled anywhere. -/
theorem recomendar_k_no_positivo (canciones : List Cancion) (q : Cancion)
    (k : ℤ) (hk : k ≤ 0) :
    (recomendar canciones q k = none
      ↔ k = 0 ∨ (canciones.length : ℤ) + k ≤ 0) := by
  rw [recomendar_eq_none_iff]
  rcases hk.lt_or_eq with hk' | rfl
  · have h0 : ¬ (0 ≤ k) := not_le.mpr hk'
    rw [encontrar_k_vecinos, pySlice, if_neg h0,
      ← List.length_eq_zero, List.length_take, List.length_map,
      length_distancias_ordenadas]
    omega
  · simp [encontrar_k_vecinos, pySlice]

/-- Counterexample to C5 as stated: with a two-song catalog and `k = -1`
(a non-positive `k`), `recomendar` does not fail at all — the slice keeps
the nearest song and a recommendation is returned. -/
theorem recomendar_k_negativo_contraejemplo :
    (recomendar
        [⟨0, "Rock Song 1", "Rock", 0, 0, 0⟩, ⟨1, "Pop Song 2", "Pop", 3, 4, 0⟩]
        ⟨0, "", "", 0, 0, 0⟩ (-1)).isSome = true := by
  rw [Option.isSome_iff_ne_none, Ne, recomendar_eq_none_iff]
  intro h
  have hlen := congrArg List.length h
  rw [encontrar_k_vecinos, pySlice, if_neg (by decide), List.length_take,
    List.length_map, length_distancias_ordenadas] at hlen
  simp at hlen

/-- Witness for the amended C5 at the counterexample's input. -/
theorem recomendar_k_no_positivo_witness :
    (recomendar
        [⟨0, "Rock Song 1", "Rock", 0, 0, 0⟩, ⟨1, "Pop Song 2", "Pop", 3, 4, 0⟩]
        ⟨0, "", "", 0, 0, 0⟩ (-1) = none
      ↔ (-1 : ℤ) = 0
          ∨ (([⟨0, "Rock Song 1", "Rock", 0, 0, 0⟩,
              ⟨1, "Pop Song 2", "Pop", 3, 4, 0⟩] : List Cancion).length : ℤ)
              + (-1) ≤ 0) :=
  recomendar_k_no_positivo _ _ (-1) (by decide)

/-- Every genre range in the table has `min < max` on each axis. -/
theorem caracteristicas_genero_rango_valido (g : String) :
    (caracteristicas_genero g).1.1 < (caracteristicas_genero g).1.2
      ∧ (caracteristicas_genero g).2.1.1 < (caracteristicas_genero g).2.1.2
      ∧ (caracteristicas_genero g).2.2.1 < (caracteristicas_genero g).2.2.2 := by
  unfold caracteristicas_genero
  split_ifs <;> norm_num

/-- C7: assuming only the `np.random.uniform(a, b)` contract (a draw from
`[a, b)` whenever `a < b`), every generated song has each feature inside
the `[min, max]` range configured for its genre on that axis. -/
theorem generar_canciones_rangos (n : ℕ) (pick : ℕ → Fin generos.length)
    (unif : ℕ → ℕ → ℚ → ℚ → ℚ)
    (hunif : ∀ i ax a b, a < b → a ≤ unif i ax a b ∧ unif i ax a b < b) :
    ∀ c ∈ _generar_canciones n pick unif,
      (caracteristicas_genero c.genero).1.1 ≤ c.energia
        ∧ c.energia ≤ (caracteristicas_genero c.genero).1.2
        ∧ (caracteristicas_genero c.genero).2.1.1 ≤ c.bailabilidad
        ∧ c.bailabilidad ≤ (caracteristicas_genero c.genero).2.1.2
        ∧ (caracteristicas_genero c.genero).2.2.1 ≤ c.valencia
        ∧ c.valencia ≤ (caracteristicas_genero c.genero).2.2.2 := by
  intro c hc
  rw [_generar_canciones, List.mem_map] at hc
  obtain ⟨i, _, rfl⟩ := hc
  dsimp only
  refine ⟨(hunif i 0 _ _ (caracteristicas_genero_rango_valido _).1).1,
    le_of_lt (hunif i 0 _ _ (caracteristicas_genero_rango_valido _).1).2,
    (hunif i 1 _ _ (caracteristicas_genero_rango_valido _).2.1).1,
    le_of_lt (hunif i 1 _ _ (caracteristicas_genero_rango_valido _).2.1).2,
    (hunif i 2 _ _ (caracteristicas_genero_rango_valido _).2.2).1,
    le_of_lt (hunif i 2 _ _ (caracteristicas_genero_rango_valido _).2.2).2⟩

/-- Witness for C7: one song generated with the lower-endpoint draw. -/
theorem generar_canciones_rangos_witness :
    (caracteristicas_genero
        ((⟨0, "Pop Song 1", "Pop", 60, 70, 60⟩ : Cancion).genero)).1.1
        ≤ (⟨0, "Pop Song 1", "Pop", 60, 70, 60⟩ : Cancion).energia
      ∧ (⟨0, "Pop Song 1", "Pop", 60, 70, 60⟩ : Cancion).energia
        ≤ (caracteristicas_genero
            ((⟨0, "Pop Song 1", "Pop", 60, 70, 60⟩ : Cancion).genero)).1.2
      ∧ (caracteristicas_genero
          ((⟨0, "Pop Song 1", "Pop", 60, 70, 60⟩ : Cancion).genero)).2.1.1
        ≤ (⟨0, "Pop Song 1", "Pop", 60, 70, 60⟩ : Cancion).bailabilidad
      ∧ (⟨0, "Pop Song 1", "Pop", 60, 70, 60⟩ : Cancion).bailabilidad
        ≤ (caracteristicas_genero
            ((⟨0, "Pop Song 1", "Pop", 60, 70, 60⟩ : Cancion).genero)).2.1.2
      ∧ (caracteristicas_genero
          ((⟨0, "Pop Song 1", "Pop", 60, 70, 60⟩ : Cancion).genero)).2.2.1
        ≤ (⟨0, "Pop Song 1", "Pop", 60, 70, 60⟩ : Cancion).valencia
      ∧ (⟨0, "Pop Song 1", "Pop", 60, 70, 60⟩ : Cancion).valencia
        ≤ (caracteristicas_genero
            ((⟨0, "Pop Song 1", "Pop", 60, 70, 60⟩ : Cancion).genero)).2.2.2 :=
  generar_canciones_rangos 1 (fun _ => ⟨0, by decide⟩) (fun _ _ a _ => a)
    (fun _ _ a b hab => ⟨le_refl a, hab⟩)
    ⟨0, "Pop Song 1", "Pop", 60, 70, 60⟩ (by decide)

/-- C8: the generated catalog is a function of the first `n` draws of the
two pseudo-random streams alone — two runs whose streams agree on those
draws (as two runs from the same seed do) produce bit-identical catalogs,
item for item, labels and feature values included. -/
theorem generar_canciones_determinista (n : ℕ)
    (pick pick' : ℕ → Fin generos.length)
    (unif unif' : ℕ → ℕ → ℚ → ℚ → ℚ)
    (hpick : ∀ i < n, pick i = pick' i)
    (hunif : ∀ i < n, ∀ ax < 3, ∀ a b : ℚ, unif i ax a b = unif' i ax a b) :
    _generar_canciones n pick unif = _generar_canciones n pick' unif' := by
  rw [_generar_canciones, _generar_canciones]
  refine List.map_congr_left ?_
  intro i hi
  rw [List.mem_range] at hi
  dsimp only
  rw [hpick i hi, hunif i hi 0 (by norm_num), hunif i hi 1 (by norm_num),
    hunif i hi 2 (by norm_num)]

/-- Witness for C8: streams that agree on the consumed draws but differ
beyond them still generate the same two-song catalog. -/
theorem generar_canciones_determinista_witness :
    _generar_canciones 2 (fun _ => ⟨0, by decide⟩) (fun _ _ a _ => a)
      = _generar_canciones 2
          (fun i => if i < 2 then ⟨0, by decide⟩ else ⟨1, by decide⟩)
          (fun i ax a b => if i < 2 ∧ ax < 3 then a else b) :=
  generar_canciones_determinista 2 _ _ _ _
    (by decide)
    (fun i hi ax hax a b => (if_pos ⟨hi, hax⟩).symm)

/-- C9: the method calls mutate nothing — the state of the system and of
the query after either call are exactly the state before it: same catalog
list (same items, length and order), and the query keeps its feature
triple. -/
theorem metodos_no_mutan (s : Sistema) (punto : Cancion) (k : ℤ) :
    (metodo_encontrar_k_vecinos s punto k).1 = s
      ∧ (metodo_encontrar_k_vecinos s punto k).1.canciones = s.canciones
      ∧ (metodo_encontrar_k_vecinos s punto k).1.canciones.length
          = s.canciones.length
      ∧ (metodo_encontrar_k_vecinos s punto k).2.1 = punto
      ∧ (metodo_recomendar s punto k).1 = s
      ∧ (metodo_recomendar s punto k).1.canciones = s.canciones
      ∧ (metodo_recomendar s punto k).2.1.energia = punto.energia
      ∧ (metodo_recomendar s punto k).2.1.bailabilidad = punto.bailabilidad
      ∧ (metodo_recomendar s punto k).2.1.valencia = punto.valencia :=
  ⟨rfl, rfl, rfl, rfl, rfl, rfl, rfl, rfl, rfl⟩
